import Mathlib

/-!
# Guardian Eye — verification of the distress classifier and response controller

Shallow embedding of the core of the Guardian Eye repository:

* `pose_detector.py` — keypoint access (`_kp`, `_mid`), the per-skeleton
  distress checks inside `detect_distress`, and `_get_anatomical_sites`;
* `live_view.py` — the duplicated per-skeleton checks `_run_distress_checks`
  and the main-loop controller (states MONITORING / ALARM / PIPELINE, the
  distress streak, the button cooldown, the alarm actuator and the
  asynchronous pipeline thread).

Coordinates and confidences are modelled as rationals, the frame loop as a
pure tick function on an explicit state record, and the external inputs of a
tick (frame evidence, button flag, wall clock, thread liveness, actuator
failure) as explicit arguments.
-/

namespace Ergo

/-- One detected keypoint: `(x, y, confidence)` as produced by YOLO pose. -/
structure Keypoint where
  x : ℚ
  y : ℚ
  conf : ℚ
  deriving DecidableEq, Repr

/-- A skeleton is a fixed array of 17 COCO keypoints (`kps_numpy` rows). -/
abbrev Skeleton := Fin 17 → Keypoint

/-- COCO keypoint index (pose_detector.py line 30). -/
def NOSE : Fin 17 := 0

/-- COCO keypoint index (pose_detector.py line 31). -/
def L_EAR : Fin 17 := 3

/-- COCO keypoint index (pose_detector.py line 31). -/
def R_EAR : Fin 17 := 4

/-- COCO keypoint index (pose_detector.py line 32). -/
def L_SHOULDER : Fin 17 := 5

/-- COCO keypoint index (pose_detector.py line 32). -/
def R_SHOULDER : Fin 17 := 6

/-- COCO keypoint index (pose_detector.py line 34). -/
def L_WRIST : Fin 17 := 9

/-- COCO keypoint index (pose_detector.py line 34). -/
def R_WRIST : Fin 17 := 10

/-- COCO keypoint index (pose_detector.py line 35). -/
def L_HIP : Fin 17 := 11

/-- COCO keypoint index (pose_detector.py line 35). -/
def R_HIP : Fin 17 := 12

/-- COCO keypoint index (pose_detector.py line 36). -/
def L_KNEE : Fin 17 := 13

/-- COCO keypoint index (pose_detector.py line 36). -/
def R_KNEE : Fin 17 := 14

/-- COCO keypoint index (pose_detector.py line 37). -/
def L_ANKLE : Fin 17 := 15

/-- COCO keypoint index (pose_detector.py line 37). -/
def R_ANKLE : Fin 17 := 16

/-- Confidence threshold for a keypoint to count as visible
(pose_detector.py line 40). -/
def KP_CONF : ℚ := 3 / 10

/-- Visibility-gated keypoint access, translation of `_kp`
(pose_detector.py lines 52-57): `none` when the confidence is below
`KP_CONF`, otherwise the keypoint. -/
def kp (sk : Skeleton) (i : Fin 17) : Option Keypoint :=
  if (sk i).conf < KP_CONF then none else some (sk i)

/-- Midpoint of two optional keypoints, translation of `_mid`
(pose_detector.py lines 60-64). -/
def mid : Option Keypoint → Option Keypoint → Option (ℚ × ℚ)
  | some a, some b => some ((a.x + b.x) / 2, (a.y + b.y) / 2)
  | _, _ => none

/-- Maximum of a list of rationals (Python `max`); the `[]` case is never
reached at call sites, which guard on list length. -/
def listMax : List ℚ → ℚ
  | [] => 0
  | x :: xs => xs.foldl max x

/-- Minimum of a list of rationals (Python `min`); the `[]` case is never
reached at call sites, which guard on list length. -/
def listMin : List ℚ → ℚ
  | [] => 0
  | x :: xs => xs.foldl min x

/-- Per-wrist contribution to the `(hands_above, hands_face)` counters of the
hands check (the loop body in live_view.py lines 334-340 and
pose_detector.py lines 275-281): an invisible wrist contributes nothing;
a wrist above the head counts into the first component, else a wrist above
the face-zone bottom counts into the second. -/
def wristZone (head_y face_zone_bottom : ℚ) : Option Keypoint → ℕ × ℕ
  | none => (0, 0)
  | some w =>
    if w.y < head_y then (1, 0)
    else if w.y < face_zone_bottom then (0, 1)
    else (0, 0)

/-- CHECK 1 of `_run_distress_checks` (live_view.py lines 303-306):
fallen, head at or below hip level. -/
def check_fallen (nose : Option Keypoint) (mid_hip : Option (ℚ × ℚ)) : List String :=
  match nose, mid_hip with
  | some n, some mh =>
    if n.y - mh.2 > 20 then ["head below hips — possible fall"] else []
  | _, _ => []

/-- CHECK 2a of `_run_distress_checks` (live_view.py lines 308-313):
torso is horizontal. -/
def check_torso_horizontal (mid_shoulder mid_hip : Option (ℚ × ℚ)) : List String :=
  match mid_shoulder, mid_hip with
  | some ms, some mh =>
    let torso_dy := |ms.2 - mh.2|
    let torso_dx := |ms.1 - mh.1|
    if torso_dx > torso_dy * (3 / 2) ∧ torso_dy < 100 then
      ["torso horizontal — lying down"]
    else []
  | _, _ => []

/-- CHECK 2b of `_run_distress_checks` (live_view.py lines 315-324):
body bounding box spread wider than tall, over the visible points. -/
def check_body_spread (all_pts : List Keypoint) : List String :=
  if all_pts.length ≥ 4 then
    let all_x := all_pts.map Keypoint.x
    let all_y := all_pts.map Keypoint.y
    let bw := listMax all_x - listMin all_x
    let bh := listMax all_y - listMin all_y
    if bh > 0 ∧ bw / bh > 9 / 5 then
      ["body spread horizontal — on the ground"]
    else []
  else []

/-- CHECK 3 of `_run_distress_checks` (live_view.py lines 326-346):
hands on/above head or covering face, tiered by the two counters. -/
def check_hands (nose : Option Keypoint) (mid_shoulder : Option (ℚ × ℚ))
    (l_wrist r_wrist : Option Keypoint) : List String :=
  match nose, mid_shoulder with
  | some n, some ms =>
    let head_y := n.y
    let shoulder_y := ms.2
    let margin := |shoulder_y - head_y| * (1 / 2)
    let face_zone_bottom := shoulder_y + margin
    let lz := wristZone head_y face_zone_bottom l_wrist
    let rz := wristZone head_y face_zone_bottom r_wrist
    let hands_above := lz.1 + rz.1
    let hands_face := lz.2 + rz.2
    if hands_above ≥ 1 then ["hands above head — distress"]
    else if hands_face + hands_above ≥ 2 then ["hands covering face — distress"]
    else if hands_face ≥ 1 then ["hand near face — possible distress"]
    else []
  | _, _ => []

/-- CHECK 4 of `_run_distress_checks` (live_view.py lines 348-353):
crouched / curled posture. -/
def check_crouched (mid_shoulder mid_hip : Option (ℚ × ℚ))
    (nose : Option Keypoint) : List String :=
  match mid_shoulder, mid_hip, nose with
  | some ms, some mh, some n =>
    let torso := |ms.2 - mh.2|
    let head_to_hip := |n.y - mh.2|
    if torso < 40 ∧ head_to_hip < 60 then ["crouched/curled posture"] else []
  | _, _, _ => []

/-- CHECK 5 of `_run_distress_checks` (live_view.py lines 355-360):
body low in frame. -/
def check_low (visible : List Keypoint) (img_h : ℚ) : List String :=
  if visible.length ≥ 3 then
    let avg_y := (visible.map Keypoint.y).sum / (visible.length : ℚ)
    if avg_y > img_h * (3 / 4) then ["body very low — possible collapse"] else []
  else []

/-- The nine candidate points of the bounding-box spread check, in source
order, restricted to the visible ones (live_view.py lines 316-317). -/
def spread_pts (sk : Skeleton) : List Keypoint :=
  ([kp sk NOSE, kp sk L_SHOULDER, kp sk R_SHOULDER, kp sk L_HIP, kp sk R_HIP,
    kp sk L_ANKLE, kp sk R_ANKLE, kp sk L_WRIST, kp sk R_WRIST] :
      List (Option Keypoint)).filterMap id

/-- The five candidate points of the body-low check, in source order,
restricted to the visible ones (live_view.py line 356). -/
def low_pts (sk : Skeleton) : List Keypoint :=
  ([kp sk NOSE, kp sk L_SHOULDER, kp sk R_SHOULDER, kp sk L_HIP, kp sk R_HIP] :
      List (Option Keypoint)).filterMap id

/-- Translation of `_run_distress_checks` (live_view.py lines 287-362):
the per-skeleton distress reasons of the live loop, in source order. -/
def run_distress_checks (sk : Skeleton) (img_h : ℚ) : List String :=
  let nose := kp sk NOSE
  let l_shoulder := kp sk L_SHOULDER
  let r_shoulder := kp sk R_SHOULDER
  let l_wrist := kp sk L_WRIST
  let r_wrist := kp sk R_WRIST
  let l_hip := kp sk L_HIP
  let r_hip := kp sk R_HIP
  let mid_shoulder := mid l_shoulder r_shoulder
  let mid_hip := mid l_hip r_hip
  check_fallen nose mid_hip
    ++ check_torso_horizontal mid_shoulder mid_hip
    ++ check_body_spread (spread_pts sk)
    ++ check_hands nose mid_shoulder l_wrist r_wrist
    ++ check_crouched mid_shoulder mid_hip nose
    ++ check_low (low_pts sk) img_h

/-- CHECK 1 inside `detect_distress` (pose_detector.py lines 239-242):
fallen, head at or below hip level. -/
def pd_check_fallen (nose : Option Keypoint) (mid_hip : Option (ℚ × ℚ)) : List String :=
  match nose, mid_hip with
  | some n, some mh =>
    if n.y - mh.2 > 20 then ["head below hips — possible fall"] else []
  | _, _ => []

/-- CHECK 2 method A inside `detect_distress` (pose_detector.py lines
244-250): torso line is horizontal. -/
def pd_check_torso_horizontal (mid_shoulder mid_hip : Option (ℚ × ℚ)) : List String :=
  match mid_shoulder, mid_hip with
  | some ms, some mh =>
    let torso_dy := |ms.2 - mh.2|
    let torso_dx := |ms.1 - mh.1|
    if torso_dx > torso_dy * (3 / 2) ∧ torso_dy < 100 then
      ["torso horizontal — lying down"]
    else []
  | _, _ => []

/-- CHECK 2 method B inside `detect_distress` (pose_detector.py lines
252-261): overall body spread wider than tall. -/
def pd_check_body_spread (all_pts : List Keypoint) : List String :=
  if all_pts.length ≥ 4 then
    let all_x := all_pts.map Keypoint.x
    let all_y := all_pts.map Keypoint.y
    let body_width := listMax all_x - listMin all_x
    let body_height := listMax all_y - listMin all_y
    if body_height > 0 ∧ body_width / body_height > 9 / 5 then
      ["body spread horizontal — on the ground"]
    else []
  else []

/-- CHECK 3 inside `detect_distress` (pose_detector.py lines 263-288):
hands on/above head or covering face, tiered by the two counters. -/
def pd_check_hands (nose : Option Keypoint) (mid_shoulder : Option (ℚ × ℚ))
    (l_wrist r_wrist : Option Keypoint) : List String :=
  match nose, mid_shoulder with
  | some n, some ms =>
    let head_y := n.y
    let shoulder_y := ms.2
    let margin := |shoulder_y - head_y| * (1 / 2)
    let face_zone_bottom := shoulder_y + margin
    let lz := wristZone head_y face_zone_bottom l_wrist
    let rz := wristZone head_y face_zone_bottom r_wrist
    let hands_above_head := lz.1 + rz.1
    let hands_on_face := lz.2 + rz.2
    if hands_above_head ≥ 1 then ["hands above head — distress posture"]
    else if hands_on_face + hands_above_head ≥ 2 then
      ["hands covering face — distress posture"]
    else if hands_on_face ≥ 1 then ["hand near face — possible distress"]
    else []
  | _, _ => []

/-- CHECK 4 inside `detect_distress` (pose_detector.py lines 290-295):
crouched / curled up. -/
def pd_check_crouched (mid_shoulder mid_hip : Option (ℚ × ℚ))
    (nose : Option Keypoint) : List String :=
  match mid_shoulder, mid_hip, nose with
  | some ms, some mh, some n =>
    let torso := |ms.2 - mh.2|
    let head_to_hip := |n.y - mh.2|
    if torso < 40 ∧ head_to_hip < 60 then ["crouched/curled posture"] else []
  | _, _, _ => []

/-- CHECK 5 inside `detect_distress` (pose_detector.py lines 297-302):
body low in frame. -/
def pd_check_low (visible : List Keypoint) (img_h : ℚ) : List String :=
  if visible.length ≥ 3 then
    let avg_y := (visible.map Keypoint.y).sum / (visible.length : ℚ)
    if avg_y > img_h * (3 / 4) then
      ["body very low in frame — possible collapse"]
    else []
  else []

/-- The per-skeleton portion of `detect_distress` (pose_detector.py lines
219-302): the distress reasons appended for one skeleton, in source order.
The unused `mid_ankle` of line 237 is dead code and is not modelled. -/
def detect_distress_checks (sk : Skeleton) (img_h : ℚ) : List String :=
  let nose := kp sk NOSE
  let l_shoulder := kp sk L_SHOULDER
  let r_shoulder := kp sk R_SHOULDER
  let l_wrist := kp sk L_WRIST
  let r_wrist := kp sk R_WRIST
  let l_hip := kp sk L_HIP
  let r_hip := kp sk R_HIP
  let mid_shoulder := mid l_shoulder r_shoulder
  let mid_hip := mid l_hip r_hip
  pd_check_fallen nose mid_hip
    ++ pd_check_torso_horizontal mid_shoulder mid_hip
    ++ pd_check_body_spread (spread_pts sk)
    ++ pd_check_hands nose mid_shoulder l_wrist r_wrist
    ++ pd_check_crouched mid_shoulder mid_hip nose
    ++ pd_check_low (low_pts sk) img_h

/-- Wording map between the two duplicated classifiers: the three reason
strings whose wording differs between `detect_distress` and
`_run_distress_checks`, identity on every other string. -/
def rename_reason (s : String) : String :=
  if s = "hands above head — distress posture" then "hands above head — distress"
  else if s = "hands covering face — distress posture" then
    "hands covering face — distress"
  else if s = "body very low in frame — possible collapse" then
    "body very low — possible collapse"
  else s

/-- Translation of `_get_anatomical_sites` (pose_detector.py lines 67-107):
the per-skeleton site map, as an association list in insertion order. -/
def get_anatomical_sites (sk : Skeleton) : List (String × (ℚ × ℚ)) :=
  let l_shoulder := kp sk L_SHOULDER
  let r_shoulder := kp sk R_SHOULDER
  let l_hip := kp sk L_HIP
  let r_hip := kp sk R_HIP
  let l_knee := kp sk L_KNEE
  let r_knee := kp sk R_KNEE
  let l_ear := kp sk L_EAR
  let r_ear := kp sk R_EAR
  let sternum := mid l_shoulder r_shoulder
  (match sternum with
   | some c => [("sternum_cpr", c)]
   | none => []) ++
  (match mid l_hip l_knee with
   | some c => [("left_outer_thigh_epipen", c)]
   | none => []) ++
  (match mid r_hip r_knee with
   | some c => [("right_outer_thigh_epipen", c)]
   | none => []) ++
  (match mid l_ear l_shoulder with
   | some c => [("left_neck_pulse", c)]
   | none => []) ++
  (match mid r_ear r_shoulder with
   | some c => [("right_neck_pulse", c)]
   | none => []) ++
  (match sternum, mid l_hip r_hip with
   | some c, some mh => [("chest_center_aed", ((c.1 + mh.1) / 2, (c.2 + mh.2) / 2))]
   | _, _ => [])

/-- The site names present in a skeleton's site map. -/
def site_keys (sk : Skeleton) : List String :=
  (get_anatomical_sites sk).map Prod.fst

/-- Controller state values of the main loop (`state` in live_view.py
line 568): the source's `"PIPELINE"` is the spec's ESCALATING. -/
inductive Mode where
  | MONITORING
  | ALARM
  | PIPELINE
  deriving DecidableEq, Repr

/-- Consecutive distress frames needed before the alarm triggers
(live_view.py line 44). -/
def DISTRESS_THRESHOLD : Int := 5

/-- The mutable state of the main loop across ticks (live_view.py lines
568-572 plus the collaborators the loop mutates): the controller mode, the
`distress_streak` counter, the alarm actuator's `_playing` flag, the
`last_button_time` cooldown stamp, the button listener's `pressed` flag,
and whether a pipeline thread object exists (`pipeline_thread is not
None`). -/
structure LoopState where
  mode : Mode
  distress_streak : Int
  alarmPlaying : Bool
  last_button_time : ℚ
  pressed : Bool
  hasThread : Bool
  deriving DecidableEq, Repr

/-- The external inputs one loop iteration observes: this frame's
`is_distressed` evidence, whether the button task set the flag since the
previous tick, the wall clock `time.time()`, whether the running pipeline
thread is still alive when polled, whether `AlarmController.start`'s
SSH command raises, and an identifier of the current frame. -/
structure TickIn where
  distressed : Bool
  press : Bool
  now : ℚ
  threadAlive : Bool
  startFails : Bool
  frame : ℕ
  deriving DecidableEq, Repr

/-- Observable collaborator calls a tick makes, in program order. -/
inductive Action where
  | alarmStartCall
  | alarmStopCall
  | launch (frame : ℕ) (distressed : Bool)
  deriving DecidableEq, Repr

/-- Effect of `AlarmController.start` (live_view.py lines 131-142) on the
`_playing` flag: early return when already playing; otherwise the flag
becomes true unless the body raises, in which case the exception is caught
and the flag is left false. -/
def alarmStart (playing fails : Bool) : Bool :=
  if playing then true else if fails then false else true

/-- Effect of `AlarmController.stop` (live_view.py lines 144-155) on the
`_playing` flag: early return when not playing; otherwise the flag becomes
false (even when the kill command raises). -/
def alarmStop (_playing : Bool) : Bool :=
  false

/-- The button-handling block of a loop iteration (live_view.py lines
580-597): in any state but PIPELINE a pending press is consumed, and is
either discarded (cooldown: less than 5 seconds since the last honored
press) or honored — stop the alarm when in ALARM, stamp the cooldown time,
enter PIPELINE and launch the escalation job with the current frame and
evidence. In PIPELINE the flag is left pending. -/
def buttonPhase (s : LoopState) (inp : TickIn) : LoopState × List Action :=
  let pressedNow := s.pressed || inp.press
  if pressedNow = true ∧ s.mode ≠ Mode.PIPELINE then
    if inp.now - s.last_button_time < 5 then
      (⟨s.mode, s.distress_streak, s.alarmPlaying, s.last_button_time, false,
        s.hasThread⟩, [])
    else
      (⟨Mode.PIPELINE, s.distress_streak,
        (if s.mode = Mode.ALARM then alarmStop s.alarmPlaying else s.alarmPlaying),
        inp.now, false, true⟩,
       (if s.mode = Mode.ALARM then [Action.alarmStopCall] else [])
         ++ [Action.launch inp.frame inp.distressed])
  else
    (⟨s.mode, s.distress_streak, s.alarmPlaying, s.last_button_time, pressedNow,
      s.hasThread⟩, [])

/-- The evidence-handling chain of a loop iteration (live_view.py lines
599-628), run on the state the button block left behind. -/
def evidencePhase (s1 : LoopState) (inp : TickIn) : LoopState × List Action :=
  match s1.mode with
  | Mode.MONITORING =>
    if inp.distressed then
      let streak := s1.distress_streak + 1
      if streak ≥ DISTRESS_THRESHOLD then
        (⟨Mode.ALARM, streak, alarmStart s1.alarmPlaying inp.startFails,
          s1.last_button_time, s1.pressed, s1.hasThread⟩, [Action.alarmStartCall])
      else
        (⟨Mode.MONITORING, streak, s1.alarmPlaying, s1.last_button_time, s1.pressed,
          s1.hasThread⟩, [])
    else
      (⟨Mode.MONITORING, 0, s1.alarmPlaying, s1.last_button_time, s1.pressed,
        s1.hasThread⟩, [])
  | Mode.ALARM =>
    if inp.distressed then
      (⟨Mode.ALARM, DISTRESS_THRESHOLD, s1.alarmPlaying, s1.last_button_time,
        s1.pressed, s1.hasThread⟩, [])
    else
      let streak := s1.distress_streak - 1
      if streak ≤ 0 then
        (⟨Mode.MONITORING, 0, alarmStop s1.alarmPlaying, s1.last_button_time,
          s1.pressed, s1.hasThread⟩, [Action.alarmStopCall])
      else
        (⟨Mode.ALARM, streak, s1.alarmPlaying, s1.last_button_time, s1.pressed,
          s1.hasThread⟩, [])
  | Mode.PIPELINE =>
    if s1.hasThread = true ∧ inp.threadAlive = false then
      (⟨Mode.MONITORING, 0, s1.alarmPlaying, s1.last_button_time, s1.pressed,
        false⟩, [])
    else
      (s1, [])

/-- One iteration of the main loop's controller logic (live_view.py lines
580-628): button handling with the 5-second cooldown first, then the
`MONITORING` / `ALARM` / `PIPELINE` evidence handling on the possibly
updated state. Returns the new loop state and the collaborator calls made,
in order. -/
def tick (s : LoopState) (inp : TickIn) : LoopState × List Action :=
  let bp := buttonPhase s inp
  let ev := evidencePhase bp.1 inp
  (ev.1, bp.2 ++ ev.2)

/-- Folding `tick` over a list of inputs: the state after those frames. -/
def run (s : LoopState) (l : List TickIn) : LoopState :=
  l.foldl (fun st i => (tick st i).1) s

/-- Folding `tick` over a list of inputs, collecting every collaborator
call made, in order. -/
def runActs (s : LoopState) (l : List TickIn) : List Action :=
  (l.foldl (fun p i => ((tick p.1 i).1, p.2 ++ (tick p.1 i).2)) (s, [])).2

/-- The same loop state with the button flag cleared. -/
def dropPress (s : LoopState) : LoopState :=
  ⟨s.mode, s.distress_streak, s.alarmPlaying, s.last_button_time, false, s.hasThread⟩

/-- The same tick input with no fresh button press. -/
def dropPressIn (i : TickIn) : TickIn :=
  ⟨i.distressed, false, i.now, i.threadAlive, i.startFails, i.frame⟩

/-- Scenario input: a distressed frame at time `t`, no press, thread alive,
actuator healthy. -/
def dIn (t : ℚ) : TickIn :=
  ⟨true, false, t, true, false, 0⟩

/-- Scenario input: a non-distressed frame at time `t`, no press, thread
alive, actuator healthy. -/
def nIn (t : ℚ) : TickIn :=
  ⟨false, false, t, true, false, 0⟩

/-- The loop's initial state (live_view.py lines 568-572): `MONITORING`,
streak 0, alarm silent, `last_button_time = 0`, no pending press, no
pipeline thread. -/
def s0 : LoopState :=
  ⟨Mode.MONITORING, 0, false, 0, false, false⟩

/-- With no pending and no fresh press, the button block is a no-op. -/
lemma buttonPhase_no_press (s : LoopState) (inp : TickIn)
    (hp : s.pressed = false) (hip : inp.press = false) :
    buttonPhase s inp = (s, []) := by
  obtain ⟨mode, streak, playing, lbt, pressed, th⟩ := s
  simp only at hp
  subst hp
  simp [buttonPhase, hip]

/-- In PIPELINE the button block only retains the (possibly set) flag. -/
lemma buttonPhase_pipeline (s : LoopState) (inp : TickIn)
    (hm : s.mode = Mode.PIPELINE) :
    buttonPhase s inp =
      (⟨Mode.PIPELINE, s.distress_streak, s.alarmPlaying, s.last_button_time,
        s.pressed || inp.press, s.hasThread⟩, []) := by
  obtain ⟨mode, streak, playing, lbt, pressed, th⟩ := s
  simp only at hm
  subst hm
  simp [buttonPhase]

/-- A press observed outside PIPELINE within the cooldown is consumed and
discarded. -/
lemma buttonPhase_discard (s : LoopState) (inp : TickIn)
    (hobs : (s.pressed || inp.press) = true) (hm : s.mode ≠ Mode.PIPELINE)
    (hcool : inp.now - s.last_button_time < 5) :
    buttonPhase s inp = (dropPress s, []) := by
  simp [buttonPhase, hobs, hm, hcool, dropPress]

/-- A press observed outside PIPELINE past the cooldown is honored. -/
lemma buttonPhase_honor (s : LoopState) (inp : TickIn)
    (hobs : (s.pressed || inp.press) = true) (hm : s.mode ≠ Mode.PIPELINE)
    (hcool : ¬ inp.now - s.last_button_time < 5) :
    buttonPhase s inp =
      (⟨Mode.PIPELINE, s.distress_streak,
        (if s.mode = Mode.ALARM then false else s.alarmPlaying),
        inp.now, false, true⟩,
       (if s.mode = Mode.ALARM then [Action.alarmStopCall] else [])
         ++ [Action.launch inp.frame inp.distressed]) := by
  simp [buttonPhase, hobs, hm, hcool, alarmStop]

/-- The evidence chain never touches the button flag. -/
lemma evidencePhase_pressed (s1 : LoopState) (inp : TickIn) :
    (evidencePhase s1 inp).1.pressed = s1.pressed := by
  obtain ⟨mode, streak, playing, lbt, pressed, th⟩ := s1
  cases mode <;> simp [evidencePhase] <;> split_ifs <;> rfl

/-- The evidence chain never touches the cooldown stamp. -/
lemma evidencePhase_lbt (s1 : LoopState) (inp : TickIn) :
    (evidencePhase s1 inp).1.last_button_time = s1.last_button_time := by
  obtain ⟨mode, streak, playing, lbt, pressed, th⟩ := s1
  cases mode <;> simp [evidencePhase] <;> split_ifs <;> rfl

/-- The evidence chain does not read the press flag of the input. -/
lemma evidencePhase_dropPressIn (s1 : LoopState) (i : TickIn) :
    evidencePhase s1 (dropPressIn i) = evidencePhase s1 i := by
  obtain ⟨d, p, now, ta, sf, fr⟩ := i
  rfl

/-- C1: from MONITORING with streak 0 and no pending interrupt, five
consecutive distressed ticks reach streak 4 after four ticks and start the
alarm and enter ALARM on the fifth; any non-distressed tick observed in
MONITORING with no pending press resets the streak to 0, so four distressed
ticks followed by one non-distressed tick end in MONITORING with streak 0
and no alarm-start call is ever made. -/
theorem monitoring_entry_hysteresis :
    (run s0 [dIn 0, dIn 1, dIn 2, dIn 3] =
       ⟨Mode.MONITORING, 4, false, 0, false, false⟩) ∧
    (run s0 [dIn 0, dIn 1, dIn 2, dIn 3, dIn 4] =
       ⟨Mode.ALARM, 5, true, 0, false, false⟩) ∧
    (runActs s0 [dIn 0, dIn 1, dIn 2, dIn 3, dIn 4] = [Action.alarmStartCall]) ∧
    (∀ (s : LoopState) (t : ℚ), s.mode = Mode.MONITORING → s.pressed = false →
       tick s (nIn t) =
         (⟨Mode.MONITORING, 0, s.alarmPlaying, s.last_button_time, false,
           s.hasThread⟩, [])) ∧
    (run s0 [dIn 0, dIn 1, dIn 2, dIn 3, nIn 4] =
       ⟨Mode.MONITORING, 0, false, 0, false, false⟩) ∧
    (runActs s0 [dIn 0, dIn 1, dIn 2, dIn 3, nIn 4] = []) := by
  refine ⟨by decide, by decide, by decide, ?_, by decide, by decide⟩
  rintro ⟨mode, streak, playing, lbt, pressed, th⟩ t hm hp
  simp only at hm hp
  subst hm; subst hp
  simp [tick, buttonPhase, evidencePhase, nIn]

/-- Witness for `monitoring_entry_hysteresis`: the streak-reset clause at
the initial state and time 3. -/
theorem monitoring_entry_hysteresis_witness :
    tick s0 (nIn 3) = (⟨Mode.MONITORING, 0, false, 0, false, false⟩, []) :=
  monitoring_entry_hysteresis.2.2.2.1 s0 3 rfl rfl

/-- C2: in ALARM with no press observed, a distressed tick clamps the
streak at 5, a non-distressed tick decrements it (staying in ALARM while it
remains positive) and stops the alarm and returns to MONITORING with
streak 0 when it reaches 0; concretely from ALARM with streak 5, four
non-distressed ticks leave ALARM with streak 1 and the alarm still on,
five stop the alarm exactly once and reach MONITORING with streak 0, and a
distressed tick after four non-distressed ones restores streak 5. -/
theorem alarm_exit_hysteresis :
    (∀ (s : LoopState) (t : ℚ), s.mode = Mode.ALARM → s.pressed = false →
       tick s (dIn t) =
         (⟨Mode.ALARM, DISTRESS_THRESHOLD, s.alarmPlaying, s.last_button_time,
           false, s.hasThread⟩, [])) ∧
    (∀ (s : LoopState) (t : ℚ), s.mode = Mode.ALARM → s.pressed = false →
       1 < s.distress_streak →
       tick s (nIn t) =
         (⟨Mode.ALARM, s.distress_streak - 1, s.alarmPlaying, s.last_button_time,
           false, s.hasThread⟩, [])) ∧
    (∀ (s : LoopState) (t : ℚ), s.mode = Mode.ALARM → s.pressed = false →
       s.distress_streak ≤ 1 →
       tick s (nIn t) =
         (⟨Mode.MONITORING, 0, false, s.last_button_time, false, s.hasThread⟩,
          [Action.alarmStopCall])) ∧
    (run ⟨Mode.ALARM, 5, true, 0, false, false⟩ [nIn 0, nIn 1, nIn 2, nIn 3] =
       ⟨Mode.ALARM, 1, true, 0, false, false⟩) ∧
    (run ⟨Mode.ALARM, 5, true, 0, false, false⟩ [nIn 0, nIn 1, nIn 2, nIn 3, nIn 4] =
       ⟨Mode.MONITORING, 0, false, 0, false, false⟩) ∧
    (runActs ⟨Mode.ALARM, 5, true, 0, false, false⟩
       [nIn 0, nIn 1, nIn 2, nIn 3, nIn 4] = [Action.alarmStopCall]) ∧
    (run ⟨Mode.ALARM, 5, true, 0, false, false⟩ [nIn 0, nIn 1, nIn 2, dIn 3] =
       ⟨Mode.ALARM, 5, true, 0, false, false⟩) := by
  refine ⟨?_, ?_, ?_, by decide, by decide, by decide, by decide⟩
  · rintro ⟨mode, streak, playing, lbt, pressed, th⟩ t hm hp
    simp only at hm hp
    subst hm; subst hp
    simp [tick, buttonPhase, evidencePhase, dIn, DISTRESS_THRESHOLD]
  · rintro ⟨mode, streak, playing, lbt, pressed, th⟩ t hm hp hstreak
    simp only at hm hp hstreak
    subst hm; subst hp
    have h1 : ¬ streak - 1 ≤ 0 := by omega
    simp [tick, buttonPhase, evidencePhase, nIn, h1]
  · rintro ⟨mode, streak, playing, lbt, pressed, th⟩ t hm hp hstreak
    simp only at hm hp hstreak
    subst hm; subst hp
    have h1 : streak - 1 ≤ 0 := by omega
    simp [tick, buttonPhase, evidencePhase, nIn, h1, alarmStop]

/-- Witness for `alarm_exit_hysteresis`: the clamp clause at a concrete
ALARM state and time 0. -/
theorem alarm_exit_hysteresis_witness :
    tick ⟨Mode.ALARM, 5, true, 0, false, false⟩ (dIn 0) =
      (⟨Mode.ALARM, DISTRESS_THRESHOLD, true, 0, false, false⟩, []) :=
  alarm_exit_hysteresis.1 ⟨Mode.ALARM, 5, true, 0, false, false⟩ 0 rfl rfl

/-- C3: a press flag observed in a state other than PIPELINE is always
consumed; when the tick's clock is within 5 seconds of the last honored
press the tick behaves exactly as if no press were pending (no state
change, no streak change, same collaborator calls); otherwise the press is
honored: the cooldown stamp becomes the current time, the escalation job is
launched with the current frame and evidence, and — as long as the launched
thread is alive when polled — the tick ends in PIPELINE with a thread in
flight. -/
theorem interrupt_cooldown_policy (s : LoopState) (inp : TickIn)
    (hobs : (s.pressed || inp.press) = true)
    (hmode : s.mode ≠ Mode.PIPELINE) :
    ((tick s inp).1.pressed = false) ∧
    (inp.now - s.last_button_time < 5 →
       tick s inp = tick (dropPress s) (dropPressIn inp)) ∧
    (¬ inp.now - s.last_button_time < 5 →
       (tick s inp).1.last_button_time = inp.now ∧
       Action.launch inp.frame inp.distressed ∈ (tick s inp).2 ∧
       (inp.threadAlive = true →
          (tick s inp).1.mode = Mode.PIPELINE ∧ (tick s inp).1.hasThread = true)) := by
  by_cases hcool : inp.now - s.last_button_time < 5
  · refine ⟨?_, fun _ => ?_, fun hc => absurd hcool hc⟩
    · simp [tick, buttonPhase_discard s inp hobs hmode hcool,
        evidencePhase_pressed, dropPress]
    · rw [tick, tick, buttonPhase_discard s inp hobs hmode hcool,
        buttonPhase_no_press (dropPress s) (dropPressIn inp) rfl rfl,
        evidencePhase_dropPressIn]
  · refine ⟨?_, fun hc => absurd hc hcool, fun _ => ?_⟩
    · simp [tick, buttonPhase_honor s inp hobs hmode hcool, evidencePhase_pressed]
    · rw [tick, buttonPhase_honor s inp hobs hmode hcool]
      refine ⟨by simp [evidencePhase_lbt], by simp, fun hta => ?_⟩
      simp [evidencePhase, hta]

/-- Witness for `interrupt_cooldown_policy`: a press observed in
MONITORING 2 seconds after the last honored press is consumed. -/
theorem interrupt_cooldown_policy_witness :
    (tick ⟨Mode.MONITORING, 0, false, 0, true, false⟩ ⟨false, false, 2, true, false, 7⟩).1.pressed
      = false :=
  (interrupt_cooldown_policy ⟨Mode.MONITORING, 0, false, 0, true, false⟩
    ⟨false, false, 2, true, false, 7⟩ (by decide) (by decide)).1

/-- C4: a press honored while in ALARM first calls the alarm stop and then
launches the escalation job with the triggering frame and current evidence
(in that order), ending the tick in PIPELINE with the streak unchanged, the
alarm off and the cooldown stamp updated — for every streak value; and a
tick that starts in PIPELINE is unaffected by the press flag in every
component except the retained flag itself. -/
theorem interrupt_during_alarm (s : LoopState) (inp : TickIn)
    (halarm : s.mode = Mode.ALARM)
    (hobs : (s.pressed || inp.press) = true)
    (hcool : ¬ inp.now - s.last_button_time < 5)
    (halive : inp.threadAlive = true) :
    (tick s inp =
       (⟨Mode.PIPELINE, s.distress_streak, false, inp.now, false, true⟩,
        [Action.alarmStopCall, Action.launch inp.frame inp.distressed])) ∧
    (∀ (s2 : LoopState) (i2 : TickIn), s2.mode = Mode.PIPELINE →
       (tick s2 i2).1.mode = (tick s2 (dropPressIn i2)).1.mode ∧
       (tick s2 i2).1.distress_streak = (tick s2 (dropPressIn i2)).1.distress_streak ∧
       (tick s2 i2).1.alarmPlaying = (tick s2 (dropPressIn i2)).1.alarmPlaying ∧
       (tick s2 i2).1.last_button_time = (tick s2 (dropPressIn i2)).1.last_button_time ∧
       (tick s2 i2).1.hasThread = (tick s2 (dropPressIn i2)).1.hasThread ∧
       (tick s2 i2).2 = (tick s2 (dropPressIn i2)).2) := by
  constructor
  · have hmode : s.mode ≠ Mode.PIPELINE := by rw [halarm]; decide
    rw [tick, buttonPhase_honor s inp hobs hmode hcool]
    simp [halarm, evidencePhase, halive]
  · rintro ⟨mode2, streak2, playing2, lbt2, pressed2, th2⟩
      ⟨d2, p2, now2, ta2, sf2, fr2⟩ hm2
    simp only at hm2
    subst hm2
    cases ta2 <;> cases th2 <;> simp [tick, buttonPhase, evidencePhase, dropPressIn]

/-- Witness for `interrupt_during_alarm`: a press honored in ALARM with
streak 3, six seconds after the last honored press. -/
theorem interrupt_during_alarm_witness :
    tick ⟨Mode.ALARM, 3, true, 0, true, false⟩ ⟨false, false, 6, true, false, 9⟩ =
      (⟨Mode.PIPELINE, 3, false, 6, false, true⟩,
       [Action.alarmStopCall, Action.launch 9 false]) :=
  (interrupt_during_alarm ⟨Mode.ALARM, 3, true, 0, true, false⟩
    ⟨false, false, 6, true, false, 9⟩ rfl (by decide) (by norm_num) rfl).1

/-- C5: a tick that starts in PIPELINE with a thread in flight makes no
collaborator call and leaves the alarm flag untouched; while the thread is
still alive the state is unchanged (whatever the frame's evidence says),
and on the first tick that observes the thread dead the controller returns
to MONITORING with streak 0, the alarm still untouched. -/
theorem escalating_ignores_evidence (s : LoopState) (inp : TickIn)
    (hmode : s.mode = Mode.PIPELINE) (hth : s.hasThread = true) :
    ((tick s inp).2 = [] ∧ (tick s inp).1.alarmPlaying = s.alarmPlaying) ∧
    (inp.threadAlive = true →
       (tick s inp).1 =
         ⟨Mode.PIPELINE, s.distress_streak, s.alarmPlaying, s.last_button_time,
          s.pressed || inp.press, true⟩) ∧
    (inp.threadAlive = false →
       (tick s inp).1 =
         ⟨Mode.MONITORING, 0, s.alarmPlaying, s.last_button_time,
          s.pressed || inp.press, false⟩) := by
  obtain ⟨mode, streak, playing, lbt, pressed, th⟩ := s
  obtain ⟨d, p, now, ta, sf, fr⟩ := inp
  simp only at hmode hth ⊢
  subst hmode; subst hth
  cases ta <;> simp [tick, buttonPhase, evidencePhase]

/-- Witness for `escalating_ignores_evidence`: a PIPELINE tick with a live
thread and distressed evidence changes nothing. -/
theorem escalating_ignores_evidence_witness :
    (tick ⟨Mode.PIPELINE, 2, false, 1, false, true⟩ ⟨true, false, 9, true, false, 4⟩).2 = [] ∧
    (tick ⟨Mode.PIPELINE, 2, false, 1, false, true⟩ ⟨true, false, 9, true, false, 4⟩).1.alarmPlaying
      = (⟨Mode.PIPELINE, 2, false, 1, false, true⟩ : LoopState).alarmPlaying :=
  (escalating_ignores_evidence ⟨Mode.PIPELINE, 2, false, 1, false, true⟩
    ⟨true, false, 9, true, false, 4⟩ rfl rfl).1

/-- C6: a failing alarm-actuator start never reaches the state machine —
for every state and input, the tick with a raising `start` agrees with the
tick with a healthy `start` in every component except the actuator's own
playing flag, and makes the same collaborator calls; concretely, a
MONITORING tick at streak 4 with distressed evidence and a failing start
still transitions to ALARM with streak 5 (with the alarm silently off). -/
theorem alarm_start_failure_absorbed :
    (∀ (s : LoopState) (d p ta : Bool) (n : ℚ) (fr : ℕ),
       (tick s ⟨d, p, n, ta, true, fr⟩).1.mode =
         (tick s ⟨d, p, n, ta, false, fr⟩).1.mode ∧
       (tick s ⟨d, p, n, ta, true, fr⟩).1.distress_streak =
         (tick s ⟨d, p, n, ta, false, fr⟩).1.distress_streak ∧
       (tick s ⟨d, p, n, ta, true, fr⟩).1.last_button_time =
         (tick s ⟨d, p, n, ta, false, fr⟩).1.last_button_time ∧
       (tick s ⟨d, p, n, ta, true, fr⟩).1.pressed =
         (tick s ⟨d, p, n, ta, false, fr⟩).1.pressed ∧
       (tick s ⟨d, p, n, ta, true, fr⟩).1.hasThread =
         (tick s ⟨d, p, n, ta, false, fr⟩).1.hasThread ∧
       (tick s ⟨d, p, n, ta, true, fr⟩).2 = (tick s ⟨d, p, n, ta, false, fr⟩).2) ∧
    (tick ⟨Mode.MONITORING, 4, false, 0, false, false⟩ ⟨true, false, 0, true, true, 0⟩ =
       (⟨Mode.ALARM, 5, false, 0, false, false⟩, [Action.alarmStartCall])) := by
  refine ⟨?_, by decide⟩
  rintro ⟨mode, streak, playing, lbt, pressed, th⟩ d p ta n fr
  cases mode <;>
    simp [tick, buttonPhase, evidencePhase, alarmStart] <;>
    split_ifs <;>
    simp_all

/-- The fallen check emits only its own reason string. -/
lemma mem_check_fallen (x : String) (a : Option Keypoint) (b : Option (ℚ × ℚ))
    (hx : x ∈ check_fallen a b) : x = "head below hips — possible fall" := by
  unfold check_fallen at hx
  split at hx
  · split at hx <;> simp_all
  · simp_all

/-- The torso-horizontal check emits only its own reason string. -/
lemma mem_check_torso (x : String) (a b : Option (ℚ × ℚ))
    (hx : x ∈ check_torso_horizontal a b) : x = "torso horizontal — lying down" := by
  unfold check_torso_horizontal at hx
  dsimp only at hx
  split at hx
  · split at hx <;> simp_all
  · simp_all

/-- The body-spread check emits only its own reason string. -/
lemma mem_check_spread (x : String) (pts : List Keypoint)
    (hx : x ∈ check_body_spread pts) :
    x = "body spread horizontal — on the ground" := by
  unfold check_body_spread at hx
  dsimp only at hx
  split at hx
  · split at hx <;> simp_all
  · simp_all

/-- The crouched check emits only its own reason string. -/
lemma mem_check_crouched (x : String) (a b : Option (ℚ × ℚ)) (c : Option Keypoint)
    (hx : x ∈ check_crouched a b c) : x = "crouched/curled posture" := by
  unfold check_crouched at hx
  dsimp only at hx
  split at hx
  · split at hx <;> simp_all
  · simp_all

/-- The body-low check emits only its own reason string. -/
lemma mem_check_low (x : String) (pts : List Keypoint) (img_h : ℚ)
    (hx : x ∈ check_low pts img_h) : x = "body very low — possible collapse" := by
  unfold check_low at hx
  dsimp only at hx
  split at hx
  · split at hx <;> simp_all
  · simp_all

/-- The hands check emits at most one reason. -/
lemma check_hands_subsingleton (a : Option Keypoint) (b : Option (ℚ × ℚ))
    (c d : Option Keypoint) : (check_hands a b c d).length ≤ 1 := by
  unfold check_hands
  dsimp only
  split
  · split_ifs <;> simp
  · simp

/-- C7: for a skeleton whose nose and shoulder midpoint are visible, the
hands check emits at most one reason; with `above` and `face` the wrist
counts of the source's loop, at least one wrist above the nose yields
exactly "hands above head", otherwise two wrists combined above head or in
the face zone yield exactly "hands covering face", otherwise exactly one
wrist in the face zone yields exactly "hand near face", and otherwise
nothing; and the above-head and covering-face reasons are never both
emitted for the same skeleton. -/
theorem hands_check_tiering (sk : Skeleton) (img_h : ℚ) (n : Keypoint) (ms : ℚ × ℚ)
    (hn : kp sk NOSE = some n)
    (hms : mid (kp sk L_SHOULDER) (kp sk R_SHOULDER) = some ms) :
    ((check_hands (kp sk NOSE) (mid (kp sk L_SHOULDER) (kp sk R_SHOULDER))
        (kp sk L_WRIST) (kp sk R_WRIST)).length ≤ 1) ∧
    (∀ above face : ℕ,
       above = (wristZone n.y (ms.2 + |ms.2 - n.y| * (1 / 2)) (kp sk L_WRIST)).1 +
           (wristZone n.y (ms.2 + |ms.2 - n.y| * (1 / 2)) (kp sk R_WRIST)).1 →
       face = (wristZone n.y (ms.2 + |ms.2 - n.y| * (1 / 2)) (kp sk L_WRIST)).2 +
           (wristZone n.y (ms.2 + |ms.2 - n.y| * (1 / 2)) (kp sk R_WRIST)).2 →
       ((1 ≤ above →
           check_hands (kp sk NOSE) (mid (kp sk L_SHOULDER) (kp sk R_SHOULDER))
               (kp sk L_WRIST) (kp sk R_WRIST) =
             ["hands above head — distress"]) ∧
        (above = 0 → 2 ≤ face + above →
           check_hands (kp sk NOSE) (mid (kp sk L_SHOULDER) (kp sk R_SHOULDER))
               (kp sk L_WRIST) (kp sk R_WRIST) =
             ["hands covering face — distress"]) ∧
        (above = 0 → face + above = 1 →
           check_hands (kp sk NOSE) (mid (kp sk L_SHOULDER) (kp sk R_SHOULDER))
               (kp sk L_WRIST) (kp sk R_WRIST) =
             ["hand near face — possible distress"]) ∧
        (above = 0 → face + above = 0 →
           check_hands (kp sk NOSE) (mid (kp sk L_SHOULDER) (kp sk R_SHOULDER))
               (kp sk L_WRIST) (kp sk R_WRIST) = []))) ∧
    (¬ ("hands above head — distress" ∈ run_distress_checks sk img_h ∧
        "hands covering face — distress" ∈ run_distress_checks sk img_h)) := by
  refine ⟨check_hands_subsingleton _ _ _ _, ?_, ?_⟩
  · intro above face ha hf
    rw [hn, hms]
    simp only [check_hands]
    rw [← ha, ← hf]
    refine ⟨fun h1 => ?_, fun h0 h2 => ?_, fun h0 h1 => ?_, fun h0 hz => ?_⟩
    · rw [if_pos h1]
    · rw [if_neg (by omega), if_pos (by omega)]
    · rw [if_neg (by omega), if_neg (by omega), if_pos (by omega)]
    · rw [if_neg (by omega), if_neg (by omega), if_neg (by omega)]
  · rintro ⟨hab, hcv⟩
    have h1 : "hands above head — distress" ∈
        check_hands (kp sk NOSE) (mid (kp sk L_SHOULDER) (kp sk R_SHOULDER))
          (kp sk L_WRIST) (kp sk R_WRIST) := by
      simp only [run_distress_checks, List.mem_append] at hab
      rcases hab with ((((h | h) | h) | h) | h) | h
      · exact absurd (mem_check_fallen _ _ _ h) (by decide)
      · exact absurd (mem_check_torso _ _ _ h) (by decide)
      · exact absurd (mem_check_spread _ _ h) (by decide)
      · exact h
      · exact absurd (mem_check_crouched _ _ _ _ h) (by decide)
      · exact absurd (mem_check_low _ _ _ h) (by decide)
    have h2 : "hands covering face — distress" ∈
        check_hands (kp sk NOSE) (mid (kp sk L_SHOULDER) (kp sk R_SHOULDER))
          (kp sk L_WRIST) (kp sk R_WRIST) := by
      simp only [run_distress_checks, List.mem_append] at hcv
      rcases hcv with ((((h | h) | h) | h) | h) | h
      · exact absurd (mem_check_fallen _ _ _ h) (by decide)
      · exact absurd (mem_check_torso _ _ _ h) (by decide)
      · exact absurd (mem_check_spread _ _ h) (by decide)
      · exact h
      · exact absurd (mem_check_crouched _ _ _ _ h) (by decide)
      · exact absurd (mem_check_low _ _ _ h) (by decide)
    have hlen := check_hands_subsingleton (kp sk NOSE)
      (mid (kp sk L_SHOULDER) (kp sk R_SHOULDER)) (kp sk L_WRIST) (kp sk R_WRIST)
    revert h1 h2 hlen
    generalize check_hands (kp sk NOSE) (mid (kp sk L_SHOULDER) (kp sk R_SHOULDER))
      (kp sk L_WRIST) (kp sk R_WRIST) = l
    rintro h1 h2 hlen
    rcases l with _ | ⟨y, _ | ⟨z, tl⟩⟩
    · simp at h1
    · simp at h1 h2
      rw [← h1] at h2
      exact absurd h2 (by decide)
    · simp at hlen

/-- A concrete fully-visible skeleton used by the witnesses: nose at
(100, 50), shoulders at (80, 100) and (120, 100), wrists raised above the
head, ears, hips, knees and ankles in plausible positions, every
confidence 1. -/
def skW : Skeleton := fun i =>
  if i = NOSE then ⟨100, 50, 1⟩
  else if i = L_EAR then ⟨90, 55, 1⟩
  else if i = R_EAR then ⟨110, 55, 1⟩
  else if i = L_SHOULDER then ⟨80, 100, 1⟩
  else if i = R_SHOULDER then ⟨120, 100, 1⟩
  else if i = L_WRIST then ⟨85, 30, 1⟩
  else if i = R_WRIST then ⟨115, 30, 1⟩
  else if i = L_HIP then ⟨85, 200, 1⟩
  else if i = R_HIP then ⟨115, 200, 1⟩
  else if i = L_KNEE then ⟨85, 260, 1⟩
  else if i = R_KNEE then ⟨115, 260, 1⟩
  else if i = L_ANKLE then ⟨85, 320, 1⟩
  else if i = R_ANKLE then ⟨115, 320, 1⟩
  else ⟨100, 80, 1⟩

/-- Every keypoint of `skW` has confidence 1. -/
lemma skW_conf (i : Fin 17) : (skW i).conf = 1 := by
  fin_cases i <;> rfl

/-- Every keypoint of `skW` is visible. -/
lemma kp_skW (i : Fin 17) : kp skW i = some (skW i) := by
  have h : ¬ (skW i).conf < KP_CONF := by
    rw [skW_conf]
    unfold KP_CONF
    norm_num
  unfold kp
  rw [if_neg h]

/-- The nose of `skW`. -/
lemma skW_NOSE : skW NOSE = ⟨100, 50, 1⟩ := by
  unfold skW
  rw [if_pos rfl]

/-- The left shoulder of `skW`. -/
lemma skW_L_SHOULDER : skW L_SHOULDER = ⟨80, 100, 1⟩ := by
  unfold skW
  rw [if_neg (by decide), if_neg (by decide), if_neg (by decide), if_pos rfl]

/-- The right shoulder of `skW`. -/
lemma skW_R_SHOULDER : skW R_SHOULDER = ⟨120, 100, 1⟩ := by
  unfold skW
  rw [if_neg (by decide), if_neg (by decide), if_neg (by decide),
    if_neg (by decide), if_pos rfl]

/-- Witness for `hands_check_tiering`: the fully-visible skeleton `skW`,
whose nose and shoulder midpoint are visible. -/
theorem hands_check_tiering_witness :
    (check_hands (kp skW NOSE) (mid (kp skW L_SHOULDER) (kp skW R_SHOULDER))
        (kp skW L_WRIST) (kp skW R_WRIST)).length ≤ 1 :=
  (hands_check_tiering skW 480 ⟨100, 50, 1⟩ (100, 100)
    (by rw [kp_skW, skW_NOSE])
    (by rw [kp_skW, kp_skW, skW_L_SHOULDER, skW_R_SHOULDER]; norm_num [mid])).1

/-- C8: the body-bbox aspect check fires exactly when at least 4 of its
nine candidate keypoints are visible, the bounding-box height of the
visible points is strictly positive, and width divided by height exceeds
1.8; in particular a zero height never fires the check. -/
theorem body_spread_characterization (sk : Skeleton) :
    (check_body_spread (spread_pts sk) ≠ [] ↔
       4 ≤ (spread_pts sk).length ∧
       0 < listMax ((spread_pts sk).map Keypoint.y) -
           listMin ((spread_pts sk).map Keypoint.y) ∧
       9 / 5 <
         (listMax ((spread_pts sk).map Keypoint.x) -
            listMin ((spread_pts sk).map Keypoint.x)) /
           (listMax ((spread_pts sk).map Keypoint.y) -
            listMin ((spread_pts sk).map Keypoint.y))) ∧
    (listMax ((spread_pts sk).map Keypoint.y) -
       listMin ((spread_pts sk).map Keypoint.y) = 0 →
       check_body_spread (spread_pts sk) = []) := by
  have hiff : check_body_spread (spread_pts sk) ≠ [] ↔
      4 ≤ (spread_pts sk).length ∧
      0 < listMax ((spread_pts sk).map Keypoint.y) -
          listMin ((spread_pts sk).map Keypoint.y) ∧
      9 / 5 <
        (listMax ((spread_pts sk).map Keypoint.x) -
           listMin ((spread_pts sk).map Keypoint.x)) /
          (listMax ((spread_pts sk).map Keypoint.y) -
           listMin ((spread_pts sk).map Keypoint.y)) := by
    unfold check_body_spread
    dsimp only
    split_ifs with h1 h2
    · simp only [ne_eq, List.cons_ne_nil, not_false_eq_true, true_iff]
      exact ⟨h1, h2.1, h2.2⟩
    · simp only [ne_eq, not_true_eq_false, false_iff, not_and]
      intro _ hh hr
      exact h2 ⟨hh, hr⟩
    · simp only [ne_eq, not_true_eq_false, false_iff, not_and]
      intro hl
      exact absurd hl h1
  refine ⟨hiff, fun h0 => ?_⟩
  by_contra hne
  exact absurd (hiff.mp hne).2.1 (by rw [h0]; exact lt_irrefl 0)

/-- Membership in the keys of a one-site segment of the site map. -/
lemma mem_keys_seg (k k' : String) (o : Option (ℚ × ℚ)) :
    (k' ∈ (match o with
           | some c => [(k, c)]
           | none => ([] : List (String × (ℚ × ℚ)))).map Prod.fst) ↔
      (k' = k ∧ o.isSome) := by
  cases o <;> simp

/-- Membership in the keys of the two-input AED segment of the site map. -/
lemma mem_keys_seg2 (k k' : String) (o o2 : Option (ℚ × ℚ))
    (f : ℚ × ℚ → ℚ × ℚ → ℚ × ℚ) :
    (k' ∈ (match o, o2 with
           | some c, some mh => [(k, f c mh)]
           | _, _ => ([] : List (String × (ℚ × ℚ)))).map Prod.fst) ↔
      (k' = k ∧ o.isSome ∧ o2.isSome) := by
  cases o <;> cases o2 <;> simp

/-- `_mid` produces a value exactly when both inputs are visible. -/
lemma mid_isSome (a b : Option Keypoint) :
    (mid a b).isSome ↔ a.isSome ∧ b.isSome := by
  cases a <;> cases b <;> simp [mid]

/-- C9: a site is present in the site map exactly when all of its required
keypoints are visible — sternum iff both shoulders, each thigh iff that
side's hip and knee, each neck-pulse site iff that side's ear and shoulder,
the AED site iff both shoulders and both hips; visibility means confidence
at least `KP_CONF`; and a fully-visible skeleton yields exactly the six
sites, in insertion order. -/
theorem anatomical_sites_characterization (sk : Skeleton) :
    ("sternum_cpr" ∈ site_keys sk ↔
       (kp sk L_SHOULDER).isSome ∧ (kp sk R_SHOULDER).isSome) ∧
    ("left_outer_thigh_epipen" ∈ site_keys sk ↔
       (kp sk L_HIP).isSome ∧ (kp sk L_KNEE).isSome) ∧
    ("right_outer_thigh_epipen" ∈ site_keys sk ↔
       (kp sk R_HIP).isSome ∧ (kp sk R_KNEE).isSome) ∧
    ("left_neck_pulse" ∈ site_keys sk ↔
       (kp sk L_EAR).isSome ∧ (kp sk L_SHOULDER).isSome) ∧
    ("right_neck_pulse" ∈ site_keys sk ↔
       (kp sk R_EAR).isSome ∧ (kp sk R_SHOULDER).isSome) ∧
    ("chest_center_aed" ∈ site_keys sk ↔
       (kp sk L_SHOULDER).isSome ∧ (kp sk R_SHOULDER).isSome ∧
       (kp sk L_HIP).isSome ∧ (kp sk R_HIP).isSome) ∧
    (∀ i : Fin 17, (kp sk i).isSome ↔ KP_CONF ≤ (sk i).conf) ∧
    ((∀ i : Fin 17, KP_CONF ≤ (sk i).conf) →
       site_keys sk = ["sternum_cpr", "left_outer_thigh_epipen",
         "right_outer_thigh_epipen", "left_neck_pulse", "right_neck_pulse",
         "chest_center_aed"]) := by
  refine ⟨?_, ?_, ?_, ?_, ?_, ?_, ?_, ?_⟩
  · simp only [site_keys, get_anatomical_sites, List.map_append,
      List.mem_append, mem_keys_seg, mem_keys_seg2]
    simp [mid_isSome]
  · simp only [site_keys, get_anatomical_sites, List.map_append,
      List.mem_append, mem_keys_seg, mem_keys_seg2]
    simp [mid_isSome]
  · simp only [site_keys, get_anatomical_sites, List.map_append,
      List.mem_append, mem_keys_seg, mem_keys_seg2]
    simp [mid_isSome]
  · simp only [site_keys, get_anatomical_sites, List.map_append,
      List.mem_append, mem_keys_seg, mem_keys_seg2]
    simp [mid_isSome]
  · simp only [site_keys, get_anatomical_sites, List.map_append,
      List.mem_append, mem_keys_seg, mem_keys_seg2]
    simp [mid_isSome]
  · simp only [site_keys, get_anatomical_sites, List.map_append,
      List.mem_append, mem_keys_seg, mem_keys_seg2]
    simp [mid_isSome, and_assoc]
  · intro i
    unfold kp
    split_ifs with h
    · exact iff_of_false (by simp) (not_le.mpr h)
    · exact iff_of_true (by simp) (le_of_not_lt h)
  · intro h
    have hv : ∀ i : Fin 17, kp sk i = some (sk i) := by
      intro i
      unfold kp
      rw [if_neg (not_lt.mpr (h i))]
    simp [site_keys, get_anatomical_sites, hv, mid]

/-- Witness for `anatomical_sites_characterization`: the fully-visible
skeleton `skW` yields exactly the six sites. -/
theorem anatomical_sites_characterization_witness :
    site_keys skW = ["sternum_cpr", "left_outer_thigh_epipen",
      "right_outer_thigh_epipen", "left_neck_pulse", "right_neck_pulse",
      "chest_center_aed"] :=
  (anatomical_sites_characterization skW).2.2.2.2.2.2.2
    (fun i => by rw [skW_conf]; unfold KP_CONF; norm_num)

/-- The two translations of the fallen check agree verbatim. -/
lemma pd_fallen_eq (a : Option Keypoint) (b : Option (ℚ × ℚ)) :
    (pd_check_fallen a b).map rename_reason = check_fallen a b := by
  cases a <;> cases b <;>
    simp only [pd_check_fallen, check_fallen, List.map_nil] <;>
    try rfl
  split <;> simp [rename_reason]

/-- The two translations of the torso-horizontal check agree verbatim. -/
lemma pd_torso_eq (a b : Option (ℚ × ℚ)) :
    (pd_check_torso_horizontal a b).map rename_reason =
      check_torso_horizontal a b := by
  cases a <;> cases b <;>
    simp only [pd_check_torso_horizontal, check_torso_horizontal,
      List.map_nil] <;>
    try rfl
  split <;> simp [rename_reason]

/-- The two translations of the body-spread check agree verbatim. -/
lemma pd_spread_eq (pts : List Keypoint) :
    (pd_check_body_spread pts).map rename_reason = check_body_spread pts := by
  simp only [pd_check_body_spread, check_body_spread]
  split
  · split <;> simp [rename_reason]
  · rfl

/-- The two translations of the hands check agree up to wording. -/
lemma pd_hands_eq (a : Option Keypoint) (b : Option (ℚ × ℚ))
    (c d : Option Keypoint) :
    (pd_check_hands a b c d).map rename_reason = check_hands a b c d := by
  cases a <;> cases b <;>
    simp only [pd_check_hands, check_hands, List.map_nil] <;>
    try rfl
  split_ifs <;> simp [rename_reason]

/-- The two translations of the crouched check agree verbatim. -/
lemma pd_crouched_eq (a b : Option (ℚ × ℚ)) (c : Option Keypoint) :
    (pd_check_crouched a b c).map rename_reason = check_crouched a b c := by
  cases a <;> cases b <;> cases c <;>
    simp only [pd_check_crouched, check_crouched, List.map_nil] <;>
    try rfl
  split <;> simp [rename_reason]

/-- The two translations of the body-low check agree up to wording. -/
lemma pd_low_eq (pts : List Keypoint) (img_h : ℚ) :
    (pd_check_low pts img_h).map rename_reason = check_low pts img_h := by
  simp only [pd_check_low, check_low]
  split
  · split <;> simp [rename_reason]
  · rfl

/-- C10: the per-skeleton checks duplicated in `_run_distress_checks` and
inside `detect_distress` fire the same checks under the same thresholds and
visibility gating on every input — the live reasons are exactly the
pose-detector reasons with three strings reworded — and hence the two
classifiers agree on `is_distressed`. -/
theorem live_pose_classifiers_agree (sk : Skeleton) (img_h : ℚ) :
    run_distress_checks sk img_h =
      (detect_distress_checks sk img_h).map rename_reason ∧
    (run_distress_checks sk img_h ≠ [] ↔ detect_distress_checks sk img_h ≠ []) := by
  have h : run_distress_checks sk img_h =
      (detect_distress_checks sk img_h).map rename_reason := by
    unfold run_distress_checks detect_distress_checks
    simp only [List.map_append, pd_fallen_eq, pd_torso_eq, pd_spread_eq,
      pd_hands_eq, pd_crouched_eq, pd_low_eq]
  refine ⟨h, ?_⟩
  rw [h]
  simp

/-- A concrete degenerate skeleton: every keypoint visible at the same
point, so the visible bounding box has height 0. -/
def skFlat : Skeleton := fun _ => ⟨100, 80, 1⟩

/-- Witness for `body_spread_characterization`: on `skFlat` the bounding
box height is 0 and the check does not fire. -/
theorem body_spread_characterization_witness :
    check_body_spread (spread_pts skFlat) = [] :=
  (body_spread_characterization skFlat).2
    (by norm_num [spread_pts, kp, KP_CONF, skFlat, listMax, listMin,
      List.filterMap_cons])

/-- Witness for `alarm_start_failure_absorbed`: the concrete failing-start
transition of its second conjunct. -/
theorem alarm_start_failure_absorbed_witness :
    tick ⟨Mode.MONITORING, 4, false, 0, false, false⟩ ⟨true, false, 0, true, true, 0⟩ =
      (⟨Mode.ALARM, 5, false, 0, false, false⟩, [Action.alarmStartCall]) :=
  alarm_start_failure_absorbed.2

/-- Witness for `live_pose_classifiers_agree`: the two classifiers agree on
the concrete skeleton `skW` at frame height 480. -/
theorem live_pose_classifiers_agree_witness :
    run_distress_checks skW 480 =
      (detect_distress_checks skW 480).map rename_reason :=
  (live_pose_classifiers_agree skW 480).1

end Ergo
